import Mathlib

/-
Shallow embedding of the session-registry core of the humanaibackend
service (src/hello/hello.ts).  The repository holds two near-identical
variants of the same file (an Ollama-backed one and a Gemini-backed one);
they share every registry operation except that the second variant's
answer endpoint performs no cleanup.  Both are embedded below: `answer`
is the first variant's endpoint (with cleanup) and `answerV2` the second
variant's (without cleanup).

Modelling decisions:
  - The six global Maps/Sets become association lists over String keys
    inside a single `Registry` record; `mapGet`/`mapSet`/`mapDel` model
    Map.get/Map.set/Map.delete and `setAdd`/`setDel` model Set.add/delete.
  - `jsStartsWith s p` models JavaScript String.prototype.startsWith via
    character-list prefix testing.
  - Nondeterministic inputs are oracle parameters: `Date.now()` and the
    random suffix of `createAIParticipant` become `now : Nat` and
    `rand : String`; message timestamps become explicit strings; the
    opaque reply generator's outcome becomes a `GenOutcome` argument.
  - Thrown APIError values become `Except ApiErr` results; an error
    carries no successor state, matching the source where every throw
    happens before any mutation.
  - In the source, `sessionMessages` is always written back with
    `.set`, while `conversationHistory` is only mutated through the
    array object returned by `.get` — so when the history key is absent
    the pushed messages are lost.  `send` reproduces that aliasing.
-/

namespace HumanAI

inductive SType : Type
  | ai : SType
  | human : SType
deriving DecidableEq

structure StoredMessage : Type where
  sender_id : String
  message : String
  timestamp : String
  is_ai : Bool
deriving DecidableEq

structure ApiResponse : Type where
  success : Bool
  message : String
deriving DecidableEq

structure AnswerResponse : Type where
  correct : Bool
deriving DecidableEq

structure SessionInfoResponse : Type where
  session_id : String
  participants : List String
  message_count : Nat
  session_type : SType
deriving DecidableEq

inductive ApiErr : Type
  | notFound : ApiErr
  | resourceExhausted : ApiErr
  | failedPrecondition : ApiErr
  | internal : ApiErr
deriving DecidableEq

/-- Association-list model of JavaScript Map.get. -/
def mapGet {α : Type} : List (String × α) → String → Option α
  | [], _ => none
  | (k, v) :: rest, key => if k = key then some v else mapGet rest key

/-- Association-list model of JavaScript Map.set. -/
def mapSet {α : Type} : List (String × α) → String → α → List (String × α)
  | [], key, v => [(key, v)]
  | (k, w) :: rest, key, v =>
    if k = key then (key, v) :: rest else (k, w) :: mapSet rest key v

/-- Association-list model of JavaScript Map.delete. -/
def mapDel {α : Type} : List (String × α) → String → List (String × α)
  | [], _ => []
  | (k, v) :: rest, key =>
    if k = key then mapDel rest key else (k, v) :: mapDel rest key

/-- Model of JavaScript Set.add. -/
def setAdd (l : List String) (s : String) : List String :=
  if s ∈ l then l else s :: l

/-- Model of JavaScript Set.delete. -/
def setDel (l : List String) (s : String) : List String :=
  l.filter (fun x => x != s)

/-- Model of JavaScript String.prototype.startsWith. -/
def jsStartsWith (s p : String) : Bool :=
  p.data.isPrefixOf s.data

/-- The six module-level Maps/Sets of hello.ts, gathered in one record. -/
structure Registry : Type where
  sessions : List (String × List String)
  userToSession : List (String × String)
  sessionMessages : List (String × List StoredMessage)
  conversationHistory : List (String × List StoredMessage)
  sessionTypes : List (String × SType)
  aiSessions : List String
deriving DecidableEq

/-- The empty initial state of the module-level maps. -/
def Registry.start : Registry :=
  { sessions := [], userToSession := [], sessionMessages := [],
    conversationHistory := [], sessionTypes := [], aiSessions := [] }

/-- createAIParticipant from hello.ts; the `Date.now()` value and the
random base-36 suffix are oracle parameters `now` and `rand`. -/
def createAIParticipant (now : Nat) (rand : String) : String :=
  "ai_" ++ toString now ++ "_" ++ rand

/-- Outcome of one call of the opaque reply generator (the fetch inside
generateAIResponse): a well-formed response body, a body of unexpected
format, or a thrown error. -/
inductive GenOutcome : Type
  | ok : String → GenOutcome
  | badFormat : GenOutcome
  | err : GenOutcome
deriving DecidableEq

/-- generateAIResponse from the first (Ollama) variant of hello.ts: a
well-formed response is trimmed and returned; an unexpected format or a
thrown error is absorbed into a fixed fallback string. -/
def generateAIResponse : GenOutcome → String
  | GenOutcome.ok s => s.trim
  | GenOutcome.badFormat => "yeah thats cool"
  | GenOutcome.err => "lol same"

/-- joinSession endpoint from hello.ts. -/
def joinSession (user_id session_id : String) (now : Nat) (rand : String)
    (st : Registry) : Except ApiErr (ApiResponse × Registry) :=
  let existingParticipants := (mapGet st.sessions session_id).getD []
  if user_id ∈ existingParticipants then
    Except.ok (⟨true, "Already in session"⟩, st)
  else if 2 ≤ existingParticipants.length then
    Except.error ApiErr.resourceExhausted
  else if existingParticipants.length = 0 then
    if jsStartsWith session_id "human" = false then
      let aiParticipant := createAIParticipant now rand
      Except.ok (⟨true, "Joined session " ++ session_id⟩,
        { st with
          sessions := mapSet st.sessions session_id [user_id, aiParticipant],
          userToSession := mapSet st.userToSession user_id session_id,
          sessionTypes := mapSet st.sessionTypes session_id SType.ai,
          aiSessions := setAdd st.aiSessions session_id,
          sessionMessages := mapSet st.sessionMessages session_id [],
          conversationHistory := mapSet st.conversationHistory session_id [] })
    else
      Except.ok
        (⟨true, "Joined session " ++ session_id ++ ", waiting for another participant"⟩,
        { st with
          sessions := mapSet st.sessions session_id [user_id],
          userToSession := mapSet st.userToSession user_id session_id,
          sessionTypes := mapSet st.sessionTypes session_id SType.human,
          sessionMessages := mapSet st.sessionMessages session_id [],
          conversationHistory := mapSet st.conversationHistory session_id [] })
  else
    Except.ok (⟨true, "Joined session " ++ session_id⟩,
      { st with
        sessions := mapSet st.sessions session_id (existingParticipants ++ [user_id]),
        userToSession := mapSet st.userToSession user_id session_id })

/-- send endpoint from hello.ts.  `ts1`/`ts2` are the two timestamp
strings and `gen` the oracle outcome of the reply generator. -/
def send (sender_id message ts1 ts2 : String) (gen : GenOutcome)
    (st : Registry) : Except ApiErr (ApiResponse × Registry) :=
  match mapGet st.userToSession sender_id with
  | none => Except.error ApiErr.notFound
  | some sessionId =>
    let participants := (mapGet st.sessions sessionId).getD []
    if participants.length < 2 then
      Except.error ApiErr.failedPrecondition
    else
      let userMessage : StoredMessage := ⟨sender_id, message, ts1, false⟩
      let newMsgs : List StoredMessage :=
        if sessionId ∈ st.aiSessions then
          match participants.find? (fun p => jsStartsWith p "ai_") with
          | some aiParticipant =>
            [userMessage, ⟨aiParticipant, generateAIResponse gen, ts2, true⟩]
          | none => [userMessage]
        else [userMessage]
      Except.ok (⟨true, "Message sent successfully"⟩,
        { st with
          sessionMessages :=
            mapSet st.sessionMessages sessionId
              (((mapGet st.sessionMessages sessionId).getD []) ++ newMsgs),
          conversationHistory :=
            match mapGet st.conversationHistory sessionId with
            | some h => mapSet st.conversationHistory sessionId (h ++ newMsgs)
            | none => st.conversationHistory })

/-- receive endpoint from hello.ts: returns the delivered message texts
together with the successor state. -/
def receive (sid : String) (st : Registry) : List String × Registry :=
  match mapGet st.userToSession sid with
  | none => ([], st)
  | some sessionId =>
    let messages := (mapGet st.sessionMessages sessionId).getD []
    let filteredMessages := messages.filter (fun m => m.sender_id != sid)
    let remainingMessages := messages.filter (fun m => m.sender_id == sid)
    (filteredMessages.map (fun m => m.message),
      { st with
        sessionMessages := mapSet st.sessionMessages sessionId remainingMessages })

/-- The five-map deletion block shared by the cleanup branches of answer
and leaveSession. -/
def destroySession (sessionId : String) (st : Registry) : Registry :=
  { st with
    sessions := mapDel st.sessions sessionId,
    sessionMessages := mapDel st.sessionMessages sessionId,
    conversationHistory := mapDel st.conversationHistory sessionId,
    sessionTypes := mapDel st.sessionTypes sessionId,
    aiSessions := setDel st.aiSessions sessionId }

/-- The participant-removal/teardown block that is textually duplicated
in the first variant's answer endpoint and in both leaveSession
endpoints. -/
def removeParticipant (sessionId user_id : String) (st : Registry) : Registry :=
  let participants := (mapGet st.sessions sessionId).getD []
  let updatedParticipants := participants.filter (fun i => i != user_id)
  let st1 :=
    if updatedParticipants.length = 0 then destroySession sessionId st
    else if sessionId ∈ st.aiSessions then destroySession sessionId st
    else { st with sessions := mapSet st.sessions sessionId updatedParticipants }
  { st1 with userToSession := mapDel st1.userToSession user_id }

/-- answer endpoint of the first (Ollama) variant: computes correctness,
then removes the caller and tears the session down. -/
def answer (user_id : String) (guess : SType) (st : Registry) :
    Except ApiErr (AnswerResponse × Registry) :=
  match mapGet st.userToSession user_id with
  | none => Except.error ApiErr.notFound
  | some sessionId =>
    match mapGet st.sessionTypes sessionId with
    | none => Except.error ApiErr.internal
    | some sessionType =>
      Except.ok (⟨guess == sessionType⟩, removeParticipant sessionId user_id st)

/-- answer endpoint of the second (Gemini) variant: computes correctness
and returns with the registry untouched — no participant removal, no
reverse-index deletion, no teardown. -/
def answerV2 (user_id : String) (guess : SType) (st : Registry) :
    Except ApiErr (AnswerResponse × Registry) :=
  match mapGet st.userToSession user_id with
  | none => Except.error ApiErr.notFound
  | some sessionId =>
    match mapGet st.sessionTypes sessionId with
    | none => Except.error ApiErr.internal
    | some sessionType => Except.ok (⟨guess == sessionType⟩, st)

/-- leaveSession endpoint from hello.ts. -/
def leaveSession (user_id : String) (st : Registry) :
    Except ApiErr (ApiResponse × Registry) :=
  match mapGet st.userToSession user_id with
  | none => Except.error ApiErr.notFound
  | some sessionId =>
    Except.ok (⟨true, "Left session successfully"⟩, removeParticipant sessionId user_id st)

/-- getSessionInfo endpoint from hello.ts (read-only). -/
def getSessionInfo (sid : String) (st : Registry) :
    Except ApiErr SessionInfoResponse :=
  match mapGet st.userToSession sid with
  | none => Except.error ApiErr.notFound
  | some sessionId =>
    Except.ok
      ⟨sessionId, (mapGet st.sessions sessionId).getD [],
        ((mapGet st.sessionMessages sessionId).getD []).length,
        (mapGet st.sessionTypes sessionId).getD SType.human⟩

/-- getPendingCount endpoint from hello.ts (read-only). -/
def getPendingCount (sid : String) (st : Registry) : Nat :=
  match mapGet st.userToSession sid with
  | none => 0
  | some sessionId =>
    (((mapGet st.sessionMessages sessionId).getD []).filter
      (fun m => m.sender_id != sid)).length

/-- One invocation of a state-mutating endpoint, with its oracle inputs.
The read-only endpoints (getSessionInfo, getPendingCount, ping) never
change the registry and are omitted from the step alphabet. -/
inductive Op : Type
  | join : String → String → Nat → String → Op
  | send : String → String → String → String → GenOutcome → Op
  | receive : String → Op
  | answer : String → SType → Op
  | answerV2 : String → SType → Op
  | leave : String → Op

/-- Successor state of one endpoint invocation; a failed invocation
leaves the registry unchanged. -/
def applyOp (st : Registry) : Op → Registry
  | Op.join u s now rand =>
    match joinSession u s now rand st with
    | Except.ok x => x.2
    | Except.error _ => st
  | Op.send u msg ts1 ts2 gen =>
    match send u msg ts1 ts2 gen st with
    | Except.ok x => x.2
    | Except.error _ => st
  | Op.receive u => (receive u st).2
  | Op.answer u g =>
    match answer u g st with
    | Except.ok x => x.2
    | Except.error _ => st
  | Op.answerV2 u g =>
    match answerV2 u g st with
    | Except.ok x => x.2
    | Except.error _ => st
  | Op.leave u =>
    match leaveSession u st with
    | Except.ok x => x.2
    | Except.error _ => st

/-- Registry states reachable from the empty initial state by any
sequence of endpoint invocations. -/
inductive Reachable : Registry → Prop
  | start : Reachable Registry.start
  | step (st : Registry) (op : Op) : Reachable st → Reachable (applyOp st op)

/-- Registry invariant established by induction over reachability:
participant lists hold at most two entries; every reverse-index entry
points to a session that lists that user; every automated session holds
exactly a creator and a generated participant carrying the automated
prefix, and only its creator can be reverse-indexed to it; and every
live session owns a conversationHistory entry. -/
def Inv (st : Registry) : Prop :=
  (∀ sid l, mapGet st.sessions sid = some l → l.length ≤ 2) ∧
  (∀ u sid, mapGet st.userToSession u = some sid →
    ∃ l, mapGet st.sessions sid = some l ∧ u ∈ l) ∧
  (∀ sid, sid ∈ st.aiSessions →
    ∃ c a, mapGet st.sessions sid = some [c, a] ∧
      jsStartsWith a "ai_" = true ∧
      ∀ u, mapGet st.userToSession u = some sid → u = c) ∧
  (∀ sid l, mapGet st.sessions sid = some l →
    ∃ hs, mapGet st.conversationHistory sid = some hs)

/-- Successor state of the automated-session creation branch of
joinSession. -/
def joinAIState (u s : String) (now : Nat) (rand : String) (st : Registry) : Registry :=
  { st with
    sessions := mapSet st.sessions s [u, createAIParticipant now rand],
    userToSession := mapSet st.userToSession u s,
    sessionTypes := mapSet st.sessionTypes s SType.ai,
    aiSessions := setAdd st.aiSessions s,
    sessionMessages := mapSet st.sessionMessages s [],
    conversationHistory := mapSet st.conversationHistory s [] }

/-- Successor state of the waiting-human creation branch of joinSession. -/
def joinHumanState (u s : String) (st : Registry) : Registry :=
  { st with
    sessions := mapSet st.sessions s [u],
    userToSession := mapSet st.userToSession u s,
    sessionTypes := mapSet st.sessionTypes s SType.human,
    sessionMessages := mapSet st.sessionMessages s [],
    conversationHistory := mapSet st.conversationHistory s [] }

/-- Successor state of the second-joiner branch of joinSession. -/
def joinSecondState (u s : String) (l : List String) (st : Registry) : Registry :=
  { st with
    sessions := mapSet st.sessions s (l ++ [u]),
    userToSession := mapSet st.userToSession u s }

/-- Successor state of a successful send: both message stores grow by
the given batch, the history only when its key is present. -/
def sendState (sid : String) (newMsgs : List StoredMessage) (st : Registry) : Registry :=
  { st with
    sessionMessages :=
      mapSet st.sessionMessages sid
        (((mapGet st.sessionMessages sid).getD []) ++ newMsgs),
    conversationHistory :=
      match mapGet st.conversationHistory sid with
      | some h => mapSet st.conversationHistory sid (h ++ newMsgs)
      | none => st.conversationHistory }

/- Concrete states used by the witnesses and counterexamples below. -/

/-- A reachable state with one automated session "room1" = [alice, ai_5_ab]. -/
def stAI : Registry := applyOp Registry.start (Op.join "alice" "room1" 5 "ab")

/-- A reachable state with one waiting human session "human-x" = [bob]. -/
def stWaiting : Registry := applyOp Registry.start (Op.join "bob" "human-x" 0 "r")

/-- A reachable state where user u created waiting session "human-a" and
then joined automated session "b" without leaving the first. -/
def stDouble : Registry :=
  applyOp (applyOp Registry.start (Op.join "u" "human-a" 0 "r")) (Op.join "u" "b" 1 "r2")

/-- A reachable automated session whose human participant chose a
user_id carrying the reserved automated prefix. -/
def stAiBob : Registry := applyOp Registry.start (Op.join "ai_bob" "room1" 5 "abc")

/-- A hand-built state with a two-human session holding two queued
messages, one authored by each participant. -/
def stMsgs : Registry :=
  { sessions := [("s1", ["a", "b"])],
    userToSession := [("a", "s1"), ("b", "s1")],
    sessionMessages := [("s1", [⟨"a", "hi", "t1", false⟩, ⟨"b", "yo", "t2", false⟩])],
    conversationHistory := [("s1", [⟨"a", "hi", "t1", false⟩, ⟨"b", "yo", "t2", false⟩])],
    sessionTypes := [("s1", SType.human)],
    aiSessions := [] }

example : mapGet stAI.sessions "room1" = some ["alice", "ai_5_ab"] := by decide
example : mapGet stDouble.sessions "human-a" = some ["u"] := by decide
example : mapGet stDouble.userToSession "u" = some "b" := by decide
example : (receive "a" stMsgs).1 = ["yo"] := by decide

/- Association-list and prefix helper lemmas. -/

theorem mapGet_mapSet {α : Type} (m : List (String × α)) (k key : String) (v : α) :
    mapGet (mapSet m k v) key = if k = key then some v else mapGet m key := by
  induction m with
  | nil => simp [mapGet, mapSet]
  | cons p rest ih =>
    obtain ⟨k1, v1⟩ := p
    by_cases h1 : k1 = k
    · subst h1
      by_cases h2 : k1 = key
      · subst h2; simp [mapGet, mapSet]
      · simp [mapGet, mapSet, h2]
    · by_cases h2 : k1 = key
      · subst h2
        simp [mapGet, mapSet, h1, Ne.symm h1]
      · simp [mapGet, mapSet, h1, h2, ih]

theorem mapGet_mapDel {α : Type} (m : List (String × α)) (k key : String) :
    mapGet (mapDel m k) key = if k = key then none else mapGet m key := by
  induction m with
  | nil => simp [mapGet, mapDel]
  | cons p rest ih =>
    obtain ⟨k1, v1⟩ := p
    by_cases h1 : k1 = k
    · subst h1
      by_cases h2 : k1 = key
      · subst h2; simp [mapGet, mapDel, ih]
      · simp [mapGet, mapDel, h2, ih]
    · by_cases h2 : k1 = key
      · subst h2
        simp [mapGet, mapDel, h1, Ne.symm h1, ih]
      · simp [mapGet, mapDel, h1, h2, ih]

theorem mem_setAdd (l : List String) (s x : String) :
    x ∈ setAdd l s ↔ x = s ∨ x ∈ l := by
  unfold setAdd
  by_cases h : s ∈ l
  · simp [h]
    intro hx; subst hx; exact h
  · simp [h]

theorem mem_setDel (l : List String) (s x : String) :
    x ∈ setDel l s ↔ x ∈ l ∧ x ≠ s := by
  unfold setDel
  simp [List.mem_filter]

theorem jsStartsWith_append (s t : String) :
    jsStartsWith (s ++ t) s = true := by
  unfold jsStartsWith
  rw [String.data_append, List.isPrefixOf_iff_prefix]
  exact List.prefix_append s.data t.data

theorem createAIParticipant_marker (now : Nat) (rand : String) :
    jsStartsWith (createAIParticipant now rand) "ai_" = true := by
  unfold createAIParticipant
  rw [String.append_assoc, String.append_assoc]
  exact jsStartsWith_append "ai_" (toString now ++ ("_" ++ rand))

theorem filter_eq_of_all_eq (l : List StoredMessage) (u v : String) (huv : u ≠ v) :
    (l.filter (fun m => m.sender_id == u)).filter (fun m => m.sender_id != v) =
      l.filter (fun m => m.sender_id == u) := by
  induction l with
  | nil => rfl
  | cons m rest ih =>
    by_cases h : m.sender_id = u
    · have hv : m.sender_id ≠ v := by rw [h]; exact huv
      simp [List.filter_cons, h, hv, ih, huv]
    · simp [List.filter_cons, h, ih]

theorem filter_own_then_others (l : List StoredMessage) (u : String) :
    (l.filter (fun m => m.sender_id == u)).filter (fun m => m.sender_id != u) = [] := by
  induction l with
  | nil => rfl
  | cons m rest ih =>
    by_cases h : m.sender_id = u
    · simp [List.filter_cons, h, ih]
    · simp [List.filter_cons, h, ih]

/- Branch equations for the endpoints. -/

theorem joinSession_already (u s : String) (now : Nat) (rand : String) (st : Registry)
    (h : u ∈ (mapGet st.sessions s).getD []) :
    joinSession u s now rand st = Except.ok (⟨true, "Already in session"⟩, st) := by
  simp [joinSession, h]

theorem joinSession_full (u s : String) (now : Nat) (rand : String) (st : Registry)
    (h1 : u ∉ (mapGet st.sessions s).getD [])
    (h2 : 2 ≤ ((mapGet st.sessions s).getD []).length) :
    joinSession u s now rand st = Except.error ApiErr.resourceExhausted := by
  simp [joinSession, h1, h2]

theorem joinSession_createAI (u s : String) (now : Nat) (rand : String) (st : Registry)
    (hempty : (mapGet st.sessions s).getD [] = [])
    (hpre : jsStartsWith s "human" = false) :
    joinSession u s now rand st =
      Except.ok (⟨true, "Joined session " ++ s⟩, joinAIState u s now rand st) := by
  simp [joinSession, joinAIState, hempty, hpre]

theorem joinSession_createHuman (u s : String) (now : Nat) (rand : String) (st : Registry)
    (hempty : (mapGet st.sessions s).getD [] = [])
    (hpre : jsStartsWith s "human" = true) :
    joinSession u s now rand st =
      Except.ok
        (⟨true, "Joined session " ++ s ++ ", waiting for another participant"⟩,
          joinHumanState u s st) := by
  simp [joinSession, joinHumanState, hempty, hpre]

theorem joinSession_second (u s : String) (now : Nat) (rand : String) (st : Registry)
    (l : List String)
    (hl : (mapGet st.sessions s).getD [] = l)
    (hlen : l.length = 1)
    (hmem : u ∉ l) :
    joinSession u s now rand st =
      Except.ok (⟨true, "Joined session " ++ s⟩, joinSecondState u s l st) := by
  simp [joinSession, joinSecondState, hl, hlen, hmem]

theorem send_notFound (u msg ts1 ts2 : String) (gen : GenOutcome) (st : Registry)
    (h : mapGet st.userToSession u = none) :
    send u msg ts1 ts2 gen st = Except.error ApiErr.notFound := by
  simp [send, h]

theorem send_precondition (u msg ts1 ts2 : String) (gen : GenOutcome) (st : Registry)
    (sid : String)
    (h1 : mapGet st.userToSession u = some sid)
    (h2 : ((mapGet st.sessions sid).getD []).length < 2) :
    send u msg ts1 ts2 gen st = Except.error ApiErr.failedPrecondition := by
  simp [send, h1, h2]

theorem send_ok_ai (u msg ts1 ts2 : String) (gen : GenOutcome) (st : Registry)
    (sid aiP : String)
    (h1 : mapGet st.userToSession u = some sid)
    (h2 : ¬ ((mapGet st.sessions sid).getD []).length < 2)
    (h3 : sid ∈ st.aiSessions)
    (h4 : ((mapGet st.sessions sid).getD []).find? (fun p => jsStartsWith p "ai_") = some aiP) :
    send u msg ts1 ts2 gen st =
      Except.ok (⟨true, "Message sent successfully"⟩,
        sendState sid
          [⟨u, msg, ts1, false⟩, ⟨aiP, generateAIResponse gen, ts2, true⟩] st) := by
  simp [send, sendState, h1, h2, h3, h4]

theorem send_ok_ai_nofind (u msg ts1 ts2 : String) (gen : GenOutcome) (st : Registry)
    (sid : String)
    (h1 : mapGet st.userToSession u = some sid)
    (h2 : ¬ ((mapGet st.sessions sid).getD []).length < 2)
    (h3 : sid ∈ st.aiSessions)
    (h4 : ((mapGet st.sessions sid).getD []).find? (fun p => jsStartsWith p "ai_") = none) :
    send u msg ts1 ts2 gen st =
      Except.ok (⟨true, "Message sent successfully"⟩,
        sendState sid [⟨u, msg, ts1, false⟩] st) := by
  simp [send, sendState, h1, h2, h3, h4]

theorem send_ok_noai (u msg ts1 ts2 : String) (gen : GenOutcome) (st : Registry)
    (sid : String)
    (h1 : mapGet st.userToSession u = some sid)
    (h2 : ¬ ((mapGet st.sessions sid).getD []).length < 2)
    (h3 : sid ∉ st.aiSessions) :
    send u msg ts1 ts2 gen st =
      Except.ok (⟨true, "Message sent successfully"⟩,
        sendState sid [⟨u, msg, ts1, false⟩] st) := by
  simp [send, sendState, h1, h2, h3]

theorem receive_nosession (u : String) (st : Registry)
    (h : mapGet st.userToSession u = none) :
    receive u st = ([], st) := by
  simp [receive, h]

theorem receive_some (u : String) (st : Registry) (sid : String)
    (h : mapGet st.userToSession u = some sid) :
    receive u st =
      ((((mapGet st.sessionMessages sid).getD []).filter
          (fun m => m.sender_id != u)).map (fun m => m.message),
        { st with
          sessionMessages :=
            mapSet st.sessionMessages sid
              (((mapGet st.sessionMessages sid).getD []).filter
                (fun m => m.sender_id == u)) }) := by
  simp [receive, h]

theorem answer_notFound (u : String) (g : SType) (st : Registry)
    (h : mapGet st.userToSession u = none) :
    answer u g st = Except.error ApiErr.notFound := by
  simp [answer, h]

theorem answer_internal (u : String) (g : SType) (st : Registry) (sid : String)
    (h1 : mapGet st.userToSession u = some sid)
    (h2 : mapGet st.sessionTypes sid = none) :
    answer u g st = Except.error ApiErr.internal := by
  simp [answer, h1, h2]

theorem answer_ok (u : String) (g : SType) (st : Registry) (sid : String) (t : SType)
    (h1 : mapGet st.userToSession u = some sid)
    (h2 : mapGet st.sessionTypes sid = some t) :
    answer u g st = Except.ok (⟨g == t⟩, removeParticipant sid u st) := by
  simp [answer, h1, h2]

theorem answerV2_notFound (u : String) (g : SType) (st : Registry)
    (h : mapGet st.userToSession u = none) :
    answerV2 u g st = Except.error ApiErr.notFound := by
  simp [answerV2, h]

theorem answerV2_internal (u : String) (g : SType) (st : Registry) (sid : String)
    (h1 : mapGet st.userToSession u = some sid)
    (h2 : mapGet st.sessionTypes sid = none) :
    answerV2 u g st = Except.error ApiErr.internal := by
  simp [answerV2, h1, h2]

theorem answerV2_ok (u : String) (g : SType) (st : Registry) (sid : String) (t : SType)
    (h1 : mapGet st.userToSession u = some sid)
    (h2 : mapGet st.sessionTypes sid = some t) :
    answerV2 u g st = Except.ok (⟨g == t⟩, st) := by
  simp [answerV2, h1, h2]

theorem leaveSession_notFound (u : String) (st : Registry)
    (h : mapGet st.userToSession u = none) :
    leaveSession u st = Except.error ApiErr.notFound := by
  simp [leaveSession, h]

theorem leaveSession_ok (u : String) (st : Registry) (sid : String)
    (h : mapGet st.userToSession u = some sid) :
    leaveSession u st =
      Except.ok (⟨true, "Left session successfully"⟩, removeParticipant sid u st) := by
  simp [leaveSession, h]

theorem removeParticipant_destroy_empty (sid u : String) (st : Registry)
    (h : (((mapGet st.sessions sid).getD []).filter (fun i => i != u)) = []) :
    removeParticipant sid u st =
      { destroySession sid st with userToSession := mapDel st.userToSession u } := by
  simp [removeParticipant, h, destroySession]

theorem removeParticipant_destroy_ai (sid u : String) (st : Registry)
    (h1 : (((mapGet st.sessions sid).getD []).filter (fun i => i != u)) ≠ [])
    (h2 : sid ∈ st.aiSessions) :
    removeParticipant sid u st =
      { destroySession sid st with userToSession := mapDel st.userToSession u } := by
  have hlen : ¬ (((mapGet st.sessions sid).getD []).filter (fun i => i != u)).length = 0 := by
    simpa [List.length_eq_zero] using h1
  simp [removeParticipant, hlen, h2, destroySession]

theorem removeParticipant_keep (sid u : String) (st : Registry)
    (h1 : (((mapGet st.sessions sid).getD []).filter (fun i => i != u)) ≠ [])
    (h2 : sid ∉ st.aiSessions) :
    removeParticipant sid u st =
      { st with
        sessions :=
          mapSet st.sessions sid
            (((mapGet st.sessions sid).getD []).filter (fun i => i != u)),
        userToSession := mapDel st.userToSession u } := by
  have hlen : ¬ (((mapGet st.sessions sid).getD []).filter (fun i => i != u)).length = 0 := by
    simpa [List.length_eq_zero] using h1
  simp [removeParticipant, hlen, h2]

/- applyOp reductions. -/

theorem applyOp_join_already (u s : String) (now : Nat) (rand : String) (st : Registry)
    (h : u ∈ (mapGet st.sessions s).getD []) :
    applyOp st (Op.join u s now rand) = st := by
  simp [applyOp, joinSession_already u s now rand st h]

theorem applyOp_join_full (u s : String) (now : Nat) (rand : String) (st : Registry)
    (h1 : u ∉ (mapGet st.sessions s).getD [])
    (h2 : 2 ≤ ((mapGet st.sessions s).getD []).length) :
    applyOp st (Op.join u s now rand) = st := by
  simp [applyOp, joinSession_full u s now rand st h1 h2]

theorem applyOp_join_createAI (u s : String) (now : Nat) (rand : String) (st : Registry)
    (hempty : (mapGet st.sessions s).getD [] = [])
    (hpre : jsStartsWith s "human" = false) :
    applyOp st (Op.join u s now rand) = joinAIState u s now rand st := by
  simp [applyOp, joinSession_createAI u s now rand st hempty hpre]

theorem applyOp_join_createHuman (u s : String) (now : Nat) (rand : String) (st : Registry)
    (hempty : (mapGet st.sessions s).getD [] = [])
    (hpre : jsStartsWith s "human" = true) :
    applyOp st (Op.join u s now rand) = joinHumanState u s st := by
  simp [applyOp, joinSession_createHuman u s now rand st hempty hpre]

theorem applyOp_join_second (u s : String) (now : Nat) (rand : String) (st : Registry)
    (l : List String)
    (hl : (mapGet st.sessions s).getD [] = l)
    (hlen : l.length = 1)
    (hmem : u ∉ l) :
    applyOp st (Op.join u s now rand) = joinSecondState u s l st := by
  simp [applyOp, joinSession_second u s now rand st l hl hlen hmem]

theorem applyOp_answerV2_id (u : String) (g : SType) (st : Registry) :
    applyOp st (Op.answerV2 u g) = st := by
  unfold applyOp
  cases h1 : mapGet st.userToSession u with
  | none => simp [answerV2_notFound u g st h1]
  | some sid =>
    cases h2 : mapGet st.sessionTypes sid with
    | none => simp [answerV2_internal u g st sid h1 h2]
    | some t => simp [answerV2_ok u g st sid t h1 h2]

/- Invariant preservation. -/

theorem inv_start : Inv Registry.start := by
  refine ⟨?_, ?_, ?_, ?_⟩ <;> intros <;> simp_all [Registry.start, mapGet]

/-- A state change that leaves participant lists, the reverse index and
the automated-session set untouched and preserves presence of history
entries preserves the invariant. -/
theorem inv_msgsOnly (st st2 : Registry) (h : Inv st)
    (hs : st2.sessions = st.sessions)
    (hi : st2.userToSession = st.userToSession)
    (ha : st2.aiSessions = st.aiSessions)
    (hh : ∀ sid hs1, mapGet st.conversationHistory sid = some hs1 →
      ∃ hs2, mapGet st2.conversationHistory sid = some hs2) :
    Inv st2 := by
  obtain ⟨h1, h2, h3, h4⟩ := h
  refine ⟨?_, ?_, ?_, ?_⟩
  · intro sid l hl
    exact h1 sid l (by rw [hs] at hl; exact hl)
  · intro u sid hu
    rw [hi] at hu
    rw [hs]
    exact h2 u sid hu
  · intro sid hsid
    rw [ha] at hsid
    obtain ⟨c, a, hla, hpa, huniq⟩ := h3 sid hsid
    exact ⟨c, a, by rw [hs]; exact hla, hpa, fun u hu => huniq u (by rw [hi] at hu; exact hu)⟩
  · intro sid l hl
    rw [hs] at hl
    obtain ⟨hs1, hh1⟩ := h4 sid l hl
    exact hh sid hs1 hh1

theorem inv_sendState (st : Registry) (sid : String) (msgs : List StoredMessage)
    (h : Inv st) : Inv (sendState sid msgs st) := by
  refine inv_msgsOnly st _ h rfl rfl rfl ?_
  intro sid2 hs1 hh1
  cases hch : mapGet st.conversationHistory sid with
  | none =>
    refine ⟨hs1, ?_⟩
    simp only [sendState, hch]
    exact hh1
  | some hist =>
    by_cases hss : sid = sid2
    · subst hss
      refine ⟨hist ++ msgs, ?_⟩
      simp [sendState, hch, mapGet_mapSet]
    · refine ⟨hs1, ?_⟩
      simp only [sendState, hch, mapGet_mapSet, if_neg hss]
      exact hh1

theorem getD_nil_cases {α : Type} (o : Option (List α)) (h : o.getD [] = []) :
    o = none ∨ o = some [] := by
  cases o with
  | none => exact Or.inl rfl
  | some l => exact Or.inr (by simpa using h)

/-- A session key with an empty or absent participant list has no
reverse-index entry pointing at it. -/
theorem no_index_into_unpopulated (st : Registry) (h : Inv st) (s : String)
    (hempty : (mapGet st.sessions s).getD [] = []) :
    ∀ x, mapGet st.userToSession x ≠ some s := by
  intro x hx
  obtain ⟨l, hl, hxl⟩ := h.2.1 x s hx
  rcases getD_nil_cases _ hempty with hc | hc
  · rw [hc] at hl
    exact Option.noConfusion hl
  · rw [hc] at hl
    injection hl with he
    subst he
    simp at hxl

theorem inv_joinAIState (st : Registry) (u s : String) (now : Nat) (rand : String)
    (h : Inv st)
    (hempty : (mapGet st.sessions s).getD [] = []) :
    Inv (joinAIState u s now rand st) := by
  have hnos : ∀ x, mapGet st.userToSession x ≠ some s :=
    no_index_into_unpopulated st h s hempty
  obtain ⟨h1, h2, h3, h4⟩ := h
  refine ⟨?_, ?_, ?_, ?_⟩
  · intro sid l hl
    simp only [joinAIState] at hl
    rw [mapGet_mapSet] at hl
    by_cases hss : s = sid
    · rw [if_pos hss] at hl
      injection hl with he
      subst he
      simp
    · rw [if_neg hss] at hl
      exact h1 sid l hl
  · intro x sid hx
    simp only [joinAIState] at hx ⊢
    rw [mapGet_mapSet] at hx
    by_cases hux : u = x
    · rw [if_pos hux] at hx
      injection hx with he
      subst he
      refine ⟨[u, createAIParticipant now rand], ?_, ?_⟩
      · rw [mapGet_mapSet, if_pos rfl]
      · rw [← hux]
        simp
    · rw [if_neg hux] at hx
      by_cases hss : s = sid
      · exact absurd hx (by rw [← hss]; exact hnos x)
      · obtain ⟨l, hl, hxl⟩ := h2 x sid hx
        exact ⟨l, by rw [mapGet_mapSet, if_neg hss]; exact hl, hxl⟩
  · intro sid hsid
    simp only [joinAIState] at hsid ⊢
    rw [mem_setAdd] at hsid
    rcases hsid with hss | hold
    · subst hss
      refine ⟨u, createAIParticipant now rand, ?_,
        createAIParticipant_marker now rand, ?_⟩
      · rw [mapGet_mapSet, if_pos rfl]
      · intro x hx
        rw [mapGet_mapSet] at hx
        by_cases hux : u = x
        · exact hux.symm
        · rw [if_neg hux] at hx
          exact absurd hx (hnos x)
    · obtain ⟨c, a, hla, hpa, huniq⟩ := h3 sid hold
      have hss : s ≠ sid := by
        intro he
        subst he
        rcases getD_nil_cases _ hempty with hc | hc <;> rw [hc] at hla <;> simp at hla
      refine ⟨c, a, ?_, hpa, ?_⟩
      · rw [mapGet_mapSet, if_neg hss]
        exact hla
      · intro x hx
        rw [mapGet_mapSet] at hx
        by_cases hux : u = x
        · rw [if_pos hux] at hx
          injection hx with he
          exact absurd he hss
        · rw [if_neg hux] at hx
          exact huniq x hx
  · intro sid l hl
    simp only [joinAIState] at hl ⊢
    rw [mapGet_mapSet] at hl
    by_cases hss : s = sid
    · exact ⟨[], by rw [mapGet_mapSet, if_pos hss]⟩
    · rw [if_neg hss] at hl
      obtain ⟨hs1, hh1⟩ := h4 sid l hl
      exact ⟨hs1, by rw [mapGet_mapSet, if_neg hss]; exact hh1⟩

theorem inv_joinHumanState (st : Registry) (u s : String)
    (h : Inv st)
    (hempty : (mapGet st.sessions s).getD [] = []) :
    Inv (joinHumanState u s st) := by
  have hnos : ∀ x, mapGet st.userToSession x ≠ some s :=
    no_index_into_unpopulated st h s hempty
  obtain ⟨h1, h2, h3, h4⟩ := h
  refine ⟨?_, ?_, ?_, ?_⟩
  · intro sid l hl
    simp only [joinHumanState] at hl
    rw [mapGet_mapSet] at hl
    by_cases hss : s = sid
    · rw [if_pos hss] at hl
      injection hl with he
      subst he
      simp
    · rw [if_neg hss] at hl
      exact h1 sid l hl
  · intro x sid hx
    simp only [joinHumanState] at hx ⊢
    rw [mapGet_mapSet] at hx
    by_cases hux : u = x
    · rw [if_pos hux] at hx
      injection hx with he
      subst he
      refine ⟨[u], ?_, ?_⟩
      · rw [mapGet_mapSet, if_pos rfl]
      · rw [← hux]
        simp
    · rw [if_neg hux] at hx
      by_cases hss : s = sid
      · exact absurd hx (by rw [← hss]; exact hnos x)
      · obtain ⟨l, hl, hxl⟩ := h2 x sid hx
        exact ⟨l, by rw [mapGet_mapSet, if_neg hss]; exact hl, hxl⟩
  · intro sid hsid
    simp only [joinHumanState] at hsid ⊢
    obtain ⟨c, a, hla, hpa, huniq⟩ := h3 sid hsid
    have hss : s ≠ sid := by
      intro he
      subst he
      rcases getD_nil_cases _ hempty with hc | hc <;> rw [hc] at hla <;> simp at hla
    refine ⟨c, a, ?_, hpa, ?_⟩
    · rw [mapGet_mapSet, if_neg hss]
      exact hla
    · intro x hx
      rw [mapGet_mapSet] at hx
      by_cases hux : u = x
      · rw [if_pos hux] at hx
        injection hx with he
        exact absurd he hss
      · rw [if_neg hux] at hx
        exact huniq x hx
  · intro sid l hl
    simp only [joinHumanState] at hl ⊢
    rw [mapGet_mapSet] at hl
    by_cases hss : s = sid
    · exact ⟨[], by rw [mapGet_mapSet, if_pos hss]⟩
    · rw [if_neg hss] at hl
      obtain ⟨hs1, hh1⟩ := h4 sid l hl
      exact ⟨hs1, by rw [mapGet_mapSet, if_neg hss]; exact hh1⟩

theorem inv_joinSecondState (st : Registry) (u s : String) (l : List String)
    (h : Inv st)
    (hsome : mapGet st.sessions s = some l)
    (hlen : l.length = 1) :
    Inv (joinSecondState u s l st) := by
  obtain ⟨h1, h2, h3, h4⟩ := h
  have hnoai : s ∉ st.aiSessions := by
    intro hs
    obtain ⟨c, a, hla, _, _⟩ := h3 s hs
    rw [hsome] at hla
    injection hla with he
    rw [he] at hlen
    simp at hlen
  refine ⟨?_, ?_, ?_, ?_⟩
  · intro sid l2 hl
    simp only [joinSecondState] at hl
    rw [mapGet_mapSet] at hl
    by_cases hss : s = sid
    · rw [if_pos hss] at hl
      injection hl with he
      subst he
      simp [hlen]
    · rw [if_neg hss] at hl
      exact h1 sid l2 hl
  · intro x sid hx
    simp only [joinSecondState] at hx ⊢
    rw [mapGet_mapSet] at hx
    by_cases hux : u = x
    · rw [if_pos hux] at hx
      injection hx with he
      subst he
      refine ⟨l ++ [u], ?_, ?_⟩
      · rw [mapGet_mapSet, if_pos rfl]
      · rw [← hux]
        simp
    · rw [if_neg hux] at hx
      obtain ⟨l2, hl2, hxl⟩ := h2 x sid hx
      by_cases hss : s = sid
      · refine ⟨l ++ [u], by rw [mapGet_mapSet, if_pos hss], ?_⟩
        rw [← hss] at hl2
        rw [hsome] at hl2
        injection hl2 with he
        subst he
        exact List.mem_append_left _ hxl
      · exact ⟨l2, by rw [mapGet_mapSet, if_neg hss]; exact hl2, hxl⟩
  · intro sid hsid
    simp only [joinSecondState] at hsid ⊢
    obtain ⟨c, a, hla, hpa, huniq⟩ := h3 sid hsid
    have hss : s ≠ sid := by
      intro he
      subst he
      exact hnoai hsid
    refine ⟨c, a, ?_, hpa, ?_⟩
    · rw [mapGet_mapSet, if_neg hss]
      exact hla
    · intro x hx
      rw [mapGet_mapSet] at hx
      by_cases hux : u = x
      · rw [if_pos hux] at hx
        injection hx with he
        exact absurd he hss
      · rw [if_neg hux] at hx
        exact huniq x hx
  · intro sid l2 hl
    simp only [joinSecondState] at hl ⊢
    rw [mapGet_mapSet] at hl
    by_cases hss : s = sid
    · obtain ⟨hs1, hh1⟩ := h4 s l hsome
      exact ⟨hs1, by rw [← hss]; exact hh1⟩
    · rw [if_neg hss] at hl
      exact h4 sid l2 hl

theorem inv_join (st : Registry) (u s : String) (now : Nat) (rand : String)
    (h : Inv st) : Inv (applyOp st (Op.join u s now rand)) := by
  by_cases hmem : u ∈ (mapGet st.sessions s).getD []
  · rw [applyOp_join_already u s now rand st hmem]
    exact h
  · by_cases hfull : 2 ≤ ((mapGet st.sessions s).getD []).length
    · rw [applyOp_join_full u s now rand st hmem hfull]
      exact h
    · by_cases hlen0 : ((mapGet st.sessions s).getD []).length = 0
      · have hempty : (mapGet st.sessions s).getD [] = [] :=
          List.length_eq_zero.mp hlen0
        by_cases hpre : jsStartsWith s "human" = false
        · rw [applyOp_join_createAI u s now rand st hempty hpre]
          exact inv_joinAIState st u s now rand h hempty
        · have hpre2 : jsStartsWith s "human" = true := by
            cases hcase : jsStartsWith s "human"
            · exact absurd hcase hpre
            · rfl
          rw [applyOp_join_createHuman u s now rand st hempty hpre2]
          exact inv_joinHumanState st u s h hempty
      · have hlen1 : ((mapGet st.sessions s).getD []).length = 1 := by
          omega
        have hsome : mapGet st.sessions s = some ((mapGet st.sessions s).getD []) := by
          cases hc : mapGet st.sessions s with
          | none =>
            rw [hc] at hlen1
            simp at hlen1
          | some l2 => simp [hc]
        rw [applyOp_join_second u s now rand st _ rfl hlen1 hmem]
        exact inv_joinSecondState st u s _ h hsome hlen1

/-- Destroying a session to which only the departing user could be
reverse-indexed preserves the invariant. -/
theorem inv_destroyState (st : Registry) (sid u : String) (h : Inv st)
    (honly : ∀ x, mapGet st.userToSession x = some sid → x = u) :
    Inv { destroySession sid st with userToSession := mapDel st.userToSession u } := by
  obtain ⟨h1, h2, h3, h4⟩ := h
  refine ⟨?_, ?_, ?_, ?_⟩
  · intro sid2 l hl
    simp only [destroySession] at hl
    rw [mapGet_mapDel] at hl
    by_cases hss : sid = sid2
    · rw [if_pos hss] at hl
      exact Option.noConfusion hl
    · rw [if_neg hss] at hl
      exact h1 sid2 l hl
  · intro x sid2 hx
    simp only [destroySession] at hx ⊢
    rw [mapGet_mapDel] at hx
    by_cases hux : u = x
    · rw [if_pos hux] at hx
      exact Option.noConfusion hx
    · rw [if_neg hux] at hx
      by_cases hss : sid = sid2
      · exfalso
        apply hux
        rw [← hss] at hx
        exact (honly x hx).symm
      · obtain ⟨l, hl, hxl⟩ := h2 x sid2 hx
        exact ⟨l, by rw [mapGet_mapDel, if_neg hss]; exact hl, hxl⟩
  · intro sid2 hsid
    simp only [destroySession] at hsid ⊢
    rw [mem_setDel] at hsid
    obtain ⟨hold, hne⟩ := hsid
    obtain ⟨c, a, hla, hpa, huniq⟩ := h3 sid2 hold
    have hss : sid ≠ sid2 := fun he => hne he.symm
    refine ⟨c, a, by rw [mapGet_mapDel, if_neg hss]; exact hla, hpa, ?_⟩
    intro x hx
    rw [mapGet_mapDel] at hx
    by_cases hux : u = x
    · rw [if_pos hux] at hx
      exact Option.noConfusion hx
    · rw [if_neg hux] at hx
      exact huniq x hx
  · intro sid2 l hl
    simp only [destroySession] at hl ⊢
    rw [mapGet_mapDel] at hl
    by_cases hss : sid = sid2
    · rw [if_pos hss] at hl
      exact Option.noConfusion hl
    · rw [if_neg hss] at hl
      obtain ⟨hs1, hh1⟩ := h4 sid2 l hl
      exact ⟨hs1, by rw [mapGet_mapDel, if_neg hss]; exact hh1⟩

/-- The retained-session branch of participant removal preserves the
invariant. -/
theorem inv_keepState (st : Registry) (sid u : String) (h : Inv st)
    (hne : ((mapGet st.sessions sid).getD []).filter (fun i => i != u) ≠ [])
    (hnoai : sid ∉ st.aiSessions) :
    Inv { st with
      sessions :=
        mapSet st.sessions sid
          (((mapGet st.sessions sid).getD []).filter (fun i => i != u)),
      userToSession := mapDel st.userToSession u } := by
  obtain ⟨h1, h2, h3, h4⟩ := h
  have hsome : mapGet st.sessions sid = some ((mapGet st.sessions sid).getD []) := by
    cases hc : mapGet st.sessions sid with
    | none =>
      exfalso
      apply hne
      rw [hc]
      rfl
    | some l0 => simp [hc]
  refine ⟨?_, ?_, ?_, ?_⟩
  · intro sid2 l hl
    rw [mapGet_mapSet] at hl
    by_cases hss : sid = sid2
    · rw [if_pos hss] at hl
      injection hl with he
      subst he
      calc (((mapGet st.sessions sid).getD []).filter (fun i => i != u)).length
          ≤ ((mapGet st.sessions sid).getD []).length := List.length_filter_le _ _
        _ ≤ 2 := h1 sid _ hsome
    · rw [if_neg hss] at hl
      exact h1 sid2 l hl
  · intro x sid2 hx
    rw [mapGet_mapDel] at hx
    by_cases hux : u = x
    · rw [if_pos hux] at hx
      exact Option.noConfusion hx
    · rw [if_neg hux] at hx
      obtain ⟨l, hl, hxl⟩ := h2 x sid2 hx
      by_cases hss : sid = sid2
      · refine ⟨((mapGet st.sessions sid).getD []).filter (fun i => i != u),
          by rw [mapGet_mapSet, if_pos hss], ?_⟩
        rw [← hss] at hl
        rw [hl]
        simp only [Option.getD_some]
        rw [List.mem_filter]
        refine ⟨hxl, ?_⟩
        simp
        exact fun he => hux he.symm
      · exact ⟨l, by rw [mapGet_mapSet, if_neg hss]; exact hl, hxl⟩
  · intro sid2 hsid
    obtain ⟨c, a, hla, hpa, huniq⟩ := h3 sid2 hsid
    have hss : sid ≠ sid2 := by
      intro he
      subst he
      exact hnoai hsid
    refine ⟨c, a, by rw [mapGet_mapSet, if_neg hss]; exact hla, hpa, ?_⟩
    intro x hx
    rw [mapGet_mapDel] at hx
    by_cases hux : u = x
    · rw [if_pos hux] at hx
      exact Option.noConfusion hx
    · rw [if_neg hux] at hx
      exact huniq x hx
  · intro sid2 l hl
    rw [mapGet_mapSet] at hl
    by_cases hss : sid = sid2
    · obtain ⟨hs1, hh1⟩ := h4 sid _ hsome
      exact ⟨hs1, by rw [← hss]; exact hh1⟩
    · rw [if_neg hss] at hl
      exact h4 sid2 l hl

theorem inv_removeParticipant (st : Registry) (sid u : String) (h : Inv st)
    (hu : mapGet st.userToSession u = some sid) :
    Inv (removeParticipant sid u st) := by
  by_cases hfe : ((mapGet st.sessions sid).getD []).filter (fun i => i != u) = []
  · rw [removeParticipant_destroy_empty sid u st hfe]
    apply inv_destroyState st sid u h
    intro x hx
    obtain ⟨l, hl, hxl⟩ := h.2.1 x sid hx
    have hgd : (mapGet st.sessions sid).getD [] = l := by simp [hl]
    rw [hgd] at hfe
    have := List.filter_eq_nil_iff.mp hfe x hxl
    simpa using this
  · by_cases hai : sid ∈ st.aiSessions
    · rw [removeParticipant_destroy_ai sid u st hfe hai]
      apply inv_destroyState st sid u h
      intro x hx
      obtain ⟨c, a, hla, hpa, huniq⟩ := h.2.2.1 sid hai
      rw [huniq x hx, huniq u hu]
    · rw [removeParticipant_keep sid u st hfe hai]
      exact inv_keepState st sid u h hfe hai

theorem applyOp_send_notFound (u msg ts1 ts2 : String) (gen : GenOutcome) (st : Registry)
    (h : mapGet st.userToSession u = none) :
    applyOp st (Op.send u msg ts1 ts2 gen) = st := by
  simp [applyOp, send_notFound u msg ts1 ts2 gen st h]

theorem applyOp_send_precondition (u msg ts1 ts2 : String) (gen : GenOutcome)
    (st : Registry) (sid : String)
    (h1 : mapGet st.userToSession u = some sid)
    (h2 : ((mapGet st.sessions sid).getD []).length < 2) :
    applyOp st (Op.send u msg ts1 ts2 gen) = st := by
  simp [applyOp, send_precondition u msg ts1 ts2 gen st sid h1 h2]

theorem applyOp_send_ok_ai (u msg ts1 ts2 : String) (gen : GenOutcome) (st : Registry)
    (sid aiP : String)
    (h1 : mapGet st.userToSession u = some sid)
    (h2 : ¬ ((mapGet st.sessions sid).getD []).length < 2)
    (h3 : sid ∈ st.aiSessions)
    (h4 : ((mapGet st.sessions sid).getD []).find? (fun p => jsStartsWith p "ai_") = some aiP) :
    applyOp st (Op.send u msg ts1 ts2 gen) =
      sendState sid
        [⟨u, msg, ts1, false⟩, ⟨aiP, generateAIResponse gen, ts2, true⟩] st := by
  simp [applyOp, send_ok_ai u msg ts1 ts2 gen st sid aiP h1 h2 h3 h4]

theorem applyOp_send_ok_ai_nofind (u msg ts1 ts2 : String) (gen : GenOutcome)
    (st : Registry) (sid : String)
    (h1 : mapGet st.userToSession u = some sid)
    (h2 : ¬ ((mapGet st.sessions sid).getD []).length < 2)
    (h3 : sid ∈ st.aiSessions)
    (h4 : ((mapGet st.sessions sid).getD []).find? (fun p => jsStartsWith p "ai_") = none) :
    applyOp st (Op.send u msg ts1 ts2 gen) =
      sendState sid [⟨u, msg, ts1, false⟩] st := by
  simp [applyOp, send_ok_ai_nofind u msg ts1 ts2 gen st sid h1 h2 h3 h4]

theorem applyOp_send_ok_noai (u msg ts1 ts2 : String) (gen : GenOutcome)
    (st : Registry) (sid : String)
    (h1 : mapGet st.userToSession u = some sid)
    (h2 : ¬ ((mapGet st.sessions sid).getD []).length < 2)
    (h3 : sid ∉ st.aiSessions) :
    applyOp st (Op.send u msg ts1 ts2 gen) =
      sendState sid [⟨u, msg, ts1, false⟩] st := by
  simp [applyOp, send_ok_noai u msg ts1 ts2 gen st sid h1 h2 h3]

theorem applyOp_receive_nosession (u : String) (st : Registry)
    (h : mapGet st.userToSession u = none) :
    applyOp st (Op.receive u) = st := by
  simp [applyOp, receive_nosession u st h]

theorem applyOp_receive_some (u : String) (st : Registry) (sid : String)
    (h : mapGet st.userToSession u = some sid) :
    applyOp st (Op.receive u) =
      { st with
        sessionMessages :=
          mapSet st.sessionMessages sid
            (((mapGet st.sessionMessages sid).getD []).filter
              (fun m => m.sender_id == u)) } := by
  simp [applyOp, receive_some u st sid h]

theorem applyOp_answer_notFound (u : String) (g : SType) (st : Registry)
    (h : mapGet st.userToSession u = none) :
    applyOp st (Op.answer u g) = st := by
  simp [applyOp, answer_notFound u g st h]

theorem applyOp_answer_internal (u : String) (g : SType) (st : Registry) (sid : String)
    (h1 : mapGet st.userToSession u = some sid)
    (h2 : mapGet st.sessionTypes sid = none) :
    applyOp st (Op.answer u g) = st := by
  simp [applyOp, answer_internal u g st sid h1 h2]

theorem applyOp_answer_ok (u : String) (g : SType) (st : Registry) (sid : String) (t : SType)
    (h1 : mapGet st.userToSession u = some sid)
    (h2 : mapGet st.sessionTypes sid = some t) :
    applyOp st (Op.answer u g) = removeParticipant sid u st := by
  simp [applyOp, answer_ok u g st sid t h1 h2]

theorem applyOp_leave_notFound (u : String) (st : Registry)
    (h : mapGet st.userToSession u = none) :
    applyOp st (Op.leave u) = st := by
  simp [applyOp, leaveSession_notFound u st h]

theorem applyOp_leave_ok (u : String) (st : Registry) (sid : String)
    (h : mapGet st.userToSession u = some sid) :
    applyOp st (Op.leave u) = removeParticipant sid u st := by
  simp [applyOp, leaveSession_ok u st sid h]

theorem inv_send (st : Registry) (u msg ts1 ts2 : String) (gen : GenOutcome)
    (h : Inv st) : Inv (applyOp st (Op.send u msg ts1 ts2 gen)) := by
  cases hu : mapGet st.userToSession u with
  | none =>
    rw [applyOp_send_notFound u msg ts1 ts2 gen st hu]
    exact h
  | some sid =>
    by_cases hlt : ((mapGet st.sessions sid).getD []).length < 2
    · rw [applyOp_send_precondition u msg ts1 ts2 gen st sid hu hlt]
      exact h
    · by_cases hai : sid ∈ st.aiSessions
      · cases hf : ((mapGet st.sessions sid).getD []).find? (fun p => jsStartsWith p "ai_") with
        | some aiP =>
          rw [applyOp_send_ok_ai u msg ts1 ts2 gen st sid aiP hu hlt hai hf]
          exact inv_sendState st sid _ h
        | none =>
          rw [applyOp_send_ok_ai_nofind u msg ts1 ts2 gen st sid hu hlt hai hf]
          exact inv_sendState st sid _ h
      · rw [applyOp_send_ok_noai u msg ts1 ts2 gen st sid hu hlt hai]
        exact inv_sendState st sid _ h

theorem inv_receive (st : Registry) (u : String) (h : Inv st) :
    Inv (applyOp st (Op.receive u)) := by
  cases hu : mapGet st.userToSession u with
  | none =>
    rw [applyOp_receive_nosession u st hu]
    exact h
  | some sid =>
    rw [applyOp_receive_some u st sid hu]
    exact inv_msgsOnly st _ h rfl rfl rfl (fun sid2 hs1 hh1 => ⟨hs1, hh1⟩)

theorem inv_answer (st : Registry) (u : String) (g : SType) (h : Inv st) :
    Inv (applyOp st (Op.answer u g)) := by
  cases hu : mapGet st.userToSession u with
  | none =>
    rw [applyOp_answer_notFound u g st hu]
    exact h
  | some sid =>
    cases ht : mapGet st.sessionTypes sid with
    | none =>
      rw [applyOp_answer_internal u g st sid hu ht]
      exact h
    | some t =>
      rw [applyOp_answer_ok u g st sid t hu ht]
      exact inv_removeParticipant st sid u h hu

theorem inv_leave (st : Registry) (u : String) (h : Inv st) :
    Inv (applyOp st (Op.leave u)) := by
  cases hu : mapGet st.userToSession u with
  | none =>
    rw [applyOp_leave_notFound u st hu]
    exact h
  | some sid =>
    rw [applyOp_leave_ok u st sid hu]
    exact inv_removeParticipant st sid u h hu

theorem inv_applyOp (st : Registry) (op : Op) (h : Inv st) : Inv (applyOp st op) := by
  cases op with
  | join u s now rand => exact inv_join st u s now rand h
  | send u msg ts1 ts2 gen => exact inv_send st u msg ts1 ts2 gen h
  | receive u => exact inv_receive st u h
  | answer u g => exact inv_answer st u g h
  | answerV2 u g =>
    rw [applyOp_answerV2_id u g st]
    exact h
  | leave u => exact inv_leave st u h

/-- Every reachable registry state satisfies the invariant. -/
theorem inv_reachable (st : Registry) (h : Reachable st) : Inv st := by
  induction h with
  | start => exact inv_start
  | step st2 op hr ih => exact inv_applyOp st2 op ih

/-- Claim C5: joining a session with 0 participants creates it with
kind Human holding only the caller (reported waiting) when the id has
the "human" marker prefix, and otherwise with kind Automated,
immediately holding the caller plus a freshly synthesized automated
participant (reported joined); both branches start with empty outbox
and transcript. -/
theorem join_new_session_kinds (st : Registry) (u s : String) (now : Nat) (rand : String)
    (hempty : (mapGet st.sessions s).getD [] = []) :
    (jsStartsWith s "human" = true →
      ∃ st2, joinSession u s now rand st =
          Except.ok
            (⟨true, "Joined session " ++ s ++ ", waiting for another participant"⟩, st2) ∧
        mapGet st2.sessions s = some [u] ∧
        mapGet st2.sessionTypes s = some SType.human ∧
        mapGet st2.sessionMessages s = some [] ∧
        mapGet st2.conversationHistory s = some [] ∧
        mapGet st2.userToSession u = some s) ∧
    (jsStartsWith s "human" = false →
      ∃ st2, joinSession u s now rand st =
          Except.ok (⟨true, "Joined session " ++ s⟩, st2) ∧
        mapGet st2.sessions s = some [u, createAIParticipant now rand] ∧
        jsStartsWith (createAIParticipant now rand) "ai_" = true ∧
        mapGet st2.sessionTypes s = some SType.ai ∧
        s ∈ st2.aiSessions ∧
        mapGet st2.sessionMessages s = some [] ∧
        mapGet st2.conversationHistory s = some [] ∧
        mapGet st2.userToSession u = some s) := by
  constructor
  · intro hpre
    refine ⟨joinHumanState u s st,
      joinSession_createHuman u s now rand st hempty hpre, ?_, ?_, ?_, ?_, ?_⟩
    all_goals simp [joinHumanState, mapGet_mapSet]
  · intro hpre
    refine ⟨joinAIState u s now rand st,
      joinSession_createAI u s now rand st hempty hpre, ?_,
      createAIParticipant_marker now rand, ?_, ?_, ?_, ?_, ?_⟩
    · simp [joinAIState, mapGet_mapSet]
    · simp [joinAIState, mapGet_mapSet]
    · simp [joinAIState, mem_setAdd]
    · simp [joinAIState, mapGet_mapSet]
    · simp [joinAIState, mapGet_mapSet]
    · simp [joinAIState, mapGet_mapSet]

theorem join_new_session_kinds_witness :
    (∃ st2, joinSession "bob" "human-room" 0 "r" Registry.start =
        Except.ok
          (⟨true, "Joined session human-room, waiting for another participant"⟩, st2) ∧
      mapGet st2.sessions "human-room" = some ["bob"] ∧
      mapGet st2.sessionTypes "human-room" = some SType.human ∧
      mapGet st2.sessionMessages "human-room" = some [] ∧
      mapGet st2.conversationHistory "human-room" = some [] ∧
      mapGet st2.userToSession "bob" = some "human-room") ∧
    (∃ st2, joinSession "alice" "room1" 5 "ab" Registry.start =
        Except.ok (⟨true, "Joined session room1"⟩, st2) ∧
      mapGet st2.sessions "room1" = some ["alice", createAIParticipant 5 "ab"] ∧
      jsStartsWith (createAIParticipant 5 "ab") "ai_" = true ∧
      mapGet st2.sessionTypes "room1" = some SType.ai ∧
      "room1" ∈ st2.aiSessions ∧
      mapGet st2.sessionMessages "room1" = some [] ∧
      mapGet st2.conversationHistory "room1" = some [] ∧
      mapGet st2.userToSession "alice" = some "room1") :=
  ⟨(join_new_session_kinds Registry.start "bob" "human-room" 0 "r" (by decide)).1 (by decide),
   (join_new_session_kinds Registry.start "alice" "room1" 5 "ab" (by decide)).2 (by decide)⟩

/-- Claim C6, counterexample: the generated automated participant id is
not guaranteed distinct from human-supplied user ids — a human who
joins with exactly the string the generator produces ends up in a
session whose two participants carry the same id, so the synthesized
id collides with a human-supplied id. -/
theorem ai_participant_collision :
    createAIParticipant 0 "x" = "ai_0_x" ∧
    (∃ st2, joinSession "ai_0_x" "room1" 0 "x" Registry.start =
        Except.ok (⟨true, "Joined session room1"⟩, st2) ∧
      mapGet st2.sessions "room1" = some ["ai_0_x", "ai_0_x"]) := by
  refine ⟨rfl, joinAIState "ai_0_x" "room1" 0 "x" Registry.start,
    joinSession_createAI "ai_0_x" "room1" 0 "x" Registry.start (by decide) (by decide), ?_⟩
  decide

/-- Claim C6, amended: the synthesized automated participant id always
carries the reserved "ai_" prefix and becomes the second participant of
the new Automated session; uniqueness and non-collision with
human-supplied ids are not enforced by the code (they depend on the
timestamp/randomness oracle). -/
theorem ai_participant_marker (st : Registry) (u s : String) (now : Nat) (rand : String)
    (hempty : (mapGet st.sessions s).getD [] = [])
    (hai : jsStartsWith s "human" = false) :
    jsStartsWith (createAIParticipant now rand) "ai_" = true ∧
    ∃ st2, joinSession u s now rand st =
        Except.ok (⟨true, "Joined session " ++ s⟩, st2) ∧
      mapGet st2.sessions s = some [u, createAIParticipant now rand] := by
  refine ⟨createAIParticipant_marker now rand, joinAIState u s now rand st,
    joinSession_createAI u s now rand st hempty hai, ?_⟩
  simp [joinAIState, mapGet_mapSet]

theorem ai_participant_marker_witness :
    jsStartsWith (createAIParticipant 3 "zz") "ai_" = true ∧
    ∃ st2, joinSession "alice" "room-a" 3 "zz" Registry.start =
        Except.ok (⟨true, "Joined session room-a"⟩, st2) ∧
      mapGet st2.sessions "room-a" = some ["alice", createAIParticipant 3 "zz"] :=
  ai_participant_marker Registry.start "alice" "room-a" 3 "zz" (by decide) (by decide)

/-- Claim C7: in every reachable state each participant list holds at
most two entries, and joinSession on a session that already has two
participants, called by a user not among them, fails with
ResourceExhausted and leaves the registry unchanged. -/
theorem participant_count_le_two (st : Registry) (hr : Reachable st) :
    (∀ sid l, mapGet st.sessions sid = some l → l.length ≤ 2) ∧
    (∀ u s now rand l, mapGet st.sessions s = some l → l.length = 2 → u ∉ l →
      joinSession u s now rand st = Except.error ApiErr.resourceExhausted ∧
      applyOp st (Op.join u s now rand) = st) := by
  refine ⟨(inv_reachable st hr).1, ?_⟩
  intro u s now rand l hl hlen hmem
  have hgd : (mapGet st.sessions s).getD [] = l := by simp [hl]
  have hmem2 : u ∉ (mapGet st.sessions s).getD [] := by rw [hgd]; exact hmem
  have hfull : 2 ≤ ((mapGet st.sessions s).getD []).length := by rw [hgd, hlen]
  exact ⟨joinSession_full u s now rand st hmem2 hfull,
    applyOp_join_full u s now rand st hmem2 hfull⟩

theorem participant_count_le_two_witness :
    Reachable stAI ∧
    mapGet stAI.sessions "room1" = some ["alice", "ai_5_ab"] ∧
    joinSession "carol" "room1" 0 "r" stAI = Except.error ApiErr.resourceExhausted ∧
    applyOp stAI (Op.join "carol" "room1" 0 "r") = stAI := by
  have hr : Reachable stAI := Reachable.step Registry.start _ Reachable.start
  have h := (participant_count_le_two stAI hr).2 "carol" "room1" 0 "r"
    ["alice", "ai_5_ab"] (by decide) (by decide) (by decide)
  exact ⟨hr, by decide, h.1, h.2⟩

/-- Claim C8: send fails with NotFound when the sender has no
reverse-index entry and with FailedPrecondition when the resolved
session holds fewer than two participants; on both failure paths the
registry is unchanged. -/
theorem send_failure_paths (st : Registry) (u msg ts1 ts2 : String) (gen : GenOutcome)
    (sid : String) :
    (mapGet st.userToSession u = none →
      send u msg ts1 ts2 gen st = Except.error ApiErr.notFound ∧
      applyOp st (Op.send u msg ts1 ts2 gen) = st) ∧
    (mapGet st.userToSession u = some sid →
      ((mapGet st.sessions sid).getD []).length < 2 →
      send u msg ts1 ts2 gen st = Except.error ApiErr.failedPrecondition ∧
      applyOp st (Op.send u msg ts1 ts2 gen) = st) := by
  constructor
  · intro h
    exact ⟨send_notFound u msg ts1 ts2 gen st h,
      applyOp_send_notFound u msg ts1 ts2 gen st h⟩
  · intro h1 h2
    exact ⟨send_precondition u msg ts1 ts2 gen st sid h1 h2,
      applyOp_send_precondition u msg ts1 ts2 gen st sid h1 h2⟩

theorem send_failure_paths_witness :
    (send "ghost" "hi" "t1" "t2" GenOutcome.err stWaiting = Except.error ApiErr.notFound ∧
      applyOp stWaiting (Op.send "ghost" "hi" "t1" "t2" GenOutcome.err) = stWaiting) ∧
    (send "bob" "hi" "t1" "t2" GenOutcome.err stWaiting =
        Except.error ApiErr.failedPrecondition ∧
      applyOp stWaiting (Op.send "bob" "hi" "t1" "t2" GenOutcome.err) = stWaiting) :=
  ⟨(send_failure_paths stWaiting "ghost" "hi" "t1" "t2" GenOutcome.err "x").1 (by decide),
   (send_failure_paths stWaiting "bob" "hi" "t1" "t2" GenOutcome.err "human-x").2
     (by decide) (by decide)⟩

/-- Claim C9: in both file variants, answer returns correct exactly when
the guess equals the stored session kind (whatever the cleanup then
does), fails NotFound for a caller with no reverse-index entry, and
fails Internal when the session is mapped but its kind record is
missing. -/
theorem submitAnswer_correctness (st : Registry) (u : String) (g : SType)
    (sid : String) (k : SType)
    (h1 : mapGet st.userToSession u = some sid)
    (h2 : mapGet st.sessionTypes sid = some k) :
    answer u g st = Except.ok (⟨g == k⟩, removeParticipant sid u st) ∧
    answerV2 u g st = Except.ok (⟨g == k⟩, st) ∧
    (∀ w, mapGet st.userToSession w = none →
      answer w g st = Except.error ApiErr.notFound ∧
      answerV2 w g st = Except.error ApiErr.notFound) ∧
    (∀ w sid2, mapGet st.userToSession w = some sid2 →
      mapGet st.sessionTypes sid2 = none →
      answer w g st = Except.error ApiErr.internal ∧
      answerV2 w g st = Except.error ApiErr.internal) := by
  refine ⟨answer_ok u g st sid k h1 h2, answerV2_ok u g st sid k h1 h2, ?_, ?_⟩
  · intro w hw
    exact ⟨answer_notFound w g st hw, answerV2_notFound w g st hw⟩
  · intro w sid2 hw ht
    exact ⟨answer_internal w g st sid2 hw ht, answerV2_internal w g st sid2 hw ht⟩

theorem submitAnswer_correctness_witness :
    mapGet stAI.userToSession "alice" = some "room1" ∧
    mapGet stAI.sessionTypes "room1" = some SType.ai ∧
    answer "alice" SType.ai stAI = Except.ok (⟨true⟩, removeParticipant "room1" "alice" stAI) ∧
    answerV2 "alice" SType.human stAI = Except.ok (⟨false⟩, stAI) ∧
    answer "ghost" SType.ai stAI = Except.error ApiErr.notFound := by
  have ha := submitAnswer_correctness stAI "alice" SType.ai "room1" SType.ai
    (by decide) (by decide)
  have hb := submitAnswer_correctness stAI "alice" SType.human "room1" SType.ai
    (by decide) (by decide)
  exact ⟨by decide, by decide, ha.1, hb.2.1, (ha.2.2.1 "ghost" (by decide)).1⟩

/-- Claim C2, counterexample: joinSession never removes its caller from
a previous session, so after joining "human-a" and then "b", user u is
listed as a participant of two live sessions while the reverse index
points only to "b" — refuting both the at-most-one-session property and
the exact agreement between the reverse index and participant lists. -/
theorem double_join_leaves_stale_participant :
    Reachable stDouble ∧
    mapGet stDouble.userToSession "u" = some "b" ∧
    mapGet stDouble.sessions "human-a" = some ["u"] ∧
    mapGet stDouble.sessions "b" = some ["u", "ai_1_r2"] := by
  refine ⟨?_, by decide, by decide, by decide⟩
  exact Reachable.step _ _ (Reachable.step Registry.start _ Reachable.start)

/-- Claim C2, amended: in every reachable state the reverse index is
consistent with participant lists in the forward direction — every user
with a reverse-index entry is a participant of the mapped session (and,
the index being a map, is mapped to at most one session).  The converse
fails: a user can stay listed in a previous session after joining
another one. -/
theorem reverse_index_forward (st : Registry) (u sid : String)
    (hr : Reachable st)
    (h : mapGet st.userToSession u = some sid) :
    ∃ l, mapGet st.sessions sid = some l ∧ u ∈ l :=
  (inv_reachable st hr).2.1 u sid h

theorem reverse_index_forward_witness :
    Reachable stAI ∧
    mapGet stAI.userToSession "alice" = some "room1" ∧
    ∃ l, mapGet stAI.sessions "room1" = some l ∧ "alice" ∈ l := by
  have hr : Reachable stAI := Reachable.step Registry.start _ Reachable.start
  exact ⟨hr, by decide, reverse_index_forward stAI "alice" "room1" hr (by decide)⟩

/-- Claim C3: receive is consume-once per recipient — it returns, in
arrival order, exactly the queued messages not authored by the caller,
leaves only the caller-authored messages in the outbox, returns nothing
on an immediate second call, still delivers the caller-authored
messages to the other participant, and returns the empty sequence (not
an error) for a user with no session. -/
theorem receive_consume_once (st : Registry) (u sid : String) (msgs : List StoredMessage)
    (hu : mapGet st.userToSession u = some sid)
    (hm : mapGet st.sessionMessages sid = some msgs) :
    (receive u st).1 =
      (msgs.filter (fun m => m.sender_id != u)).map (fun m => m.message) ∧
    mapGet ((receive u st).2).sessionMessages sid =
      some (msgs.filter (fun m => m.sender_id == u)) ∧
    (receive u ((receive u st).2)).1 = [] ∧
    (∀ v, v ≠ u → mapGet st.userToSession v = some sid →
      (receive v ((receive u st).2)).1 =
        (msgs.filter (fun m => m.sender_id == u)).map (fun m => m.message)) ∧
    (∀ w, mapGet st.userToSession w = none → receive w st = ([], st)) := by
  have hgd : (mapGet st.sessionMessages sid).getD [] = msgs := by simp [hm]
  have hr1 := receive_some u st sid hu
  have ha : (receive u st).1 =
      (msgs.filter (fun m => m.sender_id != u)).map (fun m => m.message) := by
    rw [hr1, hgd]
  have hb : (receive u st).2 =
      { st with
        sessionMessages :=
          mapSet st.sessionMessages sid
            (msgs.filter (fun m => m.sender_id == u)) } := by
    rw [hr1, hgd]
  have hmsg : mapGet ((receive u st).2).sessionMessages sid =
      some (msgs.filter (fun m => m.sender_id == u)) := by
    rw [hb]
    simp [mapGet_mapSet]
  have hu2 : mapGet ((receive u st).2).userToSession u = some sid := by
    rw [hb]
    exact hu
  refine ⟨ha, hmsg, ?_, ?_, fun w hw => receive_nosession w st hw⟩
  · rw [receive_some u ((receive u st).2) sid hu2]
    rw [show ((mapGet ((receive u st).2).sessionMessages sid).getD []) =
        msgs.filter (fun m => m.sender_id == u) from by simp [hmsg]]
    rw [filter_own_then_others]
    rfl
  · intro v hvu hv
    have hv2 : mapGet ((receive u st).2).userToSession v = some sid := by
      rw [hb]
      exact hv
    rw [receive_some v ((receive u st).2) sid hv2]
    rw [show ((mapGet ((receive u st).2).sessionMessages sid).getD []) =
        msgs.filter (fun m => m.sender_id == u) from by simp [hmsg]]
    rw [filter_eq_of_all_eq msgs u v (Ne.symm hvu)]

theorem receive_consume_once_witness :
    mapGet stMsgs.userToSession "a" = some "s1" ∧
    (receive "a" stMsgs).1 = ["yo"] ∧
    (receive "a" ((receive "a" stMsgs).2)).1 = [] ∧
    (receive "b" ((receive "a" stMsgs).2)).1 = ["hi"] := by
  have h := receive_consume_once stMsgs "a" "s1"
    [⟨"a", "hi", "t1", false⟩, ⟨"b", "yo", "t2", false⟩] (by decide) (by decide)
  refine ⟨by decide, ?_, h.2.2.1, ?_⟩
  · rw [h.1]
    decide
  · rw [h.2.2.2.1 "b" (by decide) (by decide)]
    decide

/-- Claim C4, counterexample: the reply in an Automated session is
attributed to the first participant whose id starts with "ai_", which
is the human caller when the caller chose an "ai_"-prefixed user id —
so the reply is not authored by the synthesized automated participant
id, refuting the attribution clause of the claim. -/
theorem send_ai_reply_misattributed :
    Reachable stAiBob ∧
    createAIParticipant 5 "abc" = "ai_5_abc" ∧
    mapGet stAiBob.sessions "room1" = some ["ai_bob", "ai_5_abc"] ∧
    (∃ st2, send "ai_bob" "hi" "t1" "t2" GenOutcome.err stAiBob =
        Except.ok (⟨true, "Message sent successfully"⟩, st2) ∧
      mapGet st2.sessionMessages "room1" =
        some [⟨"ai_bob", "hi", "t1", false⟩, ⟨"ai_bob", "lol same", "t2", true⟩]) ∧
    ("ai_bob" : String) ≠ "ai_5_abc" := by
  refine ⟨Reachable.step Registry.start _ Reachable.start, rfl, by decide, ?_, by decide⟩
  refine ⟨sendState "room1"
    [⟨"ai_bob", "hi", "t1", false⟩,
      ⟨"ai_bob", generateAIResponse GenOutcome.err, "t2", true⟩] stAiBob, ?_, ?_⟩
  · exact send_ok_ai "ai_bob" "hi" "t1" "t2" GenOutcome.err stAiBob "room1" "ai_bob"
      (by decide) (by decide) (by decide) (by decide)
  · decide

/-- Claim C4, amended: in every reachable Automated session a successful
send appends exactly two entries to both the outbox and the transcript —
the sender's message tagged not-automated followed by exactly one reply
tagged automated — where the reply is authored by the first participant
in list order whose id carries the "ai_" prefix (the synthesized
automated id whenever the human's id does not itself carry that
prefix); on generator failure the fixed fallback string is the reply. -/
theorem send_ai_appends_two (st : Registry) (u sid msg ts1 ts2 : String) (gen : GenOutcome)
    (hr : Reachable st)
    (hu : mapGet st.userToSession u = some sid)
    (hai : sid ∈ st.aiSessions) :
    ∃ aiP hist st2,
      ((mapGet st.sessions sid).getD []).find? (fun p => jsStartsWith p "ai_") = some aiP ∧
      jsStartsWith aiP "ai_" = true ∧
      mapGet st.conversationHistory sid = some hist ∧
      send u msg ts1 ts2 gen st = Except.ok (⟨true, "Message sent successfully"⟩, st2) ∧
      mapGet st2.sessionMessages sid =
        some (((mapGet st.sessionMessages sid).getD []) ++
          [⟨u, msg, ts1, false⟩, ⟨aiP, generateAIResponse gen, ts2, true⟩]) ∧
      mapGet st2.conversationHistory sid =
        some (hist ++ [⟨u, msg, ts1, false⟩, ⟨aiP, generateAIResponse gen, ts2, true⟩]) ∧
      generateAIResponse GenOutcome.err = "lol same" ∧
      generateAIResponse GenOutcome.badFormat = "yeah thats cool" := by
  obtain ⟨c, a, hla, hpa, huniq⟩ := (inv_reachable st hr).2.2.1 sid hai
  obtain ⟨hist, hh⟩ := (inv_reachable st hr).2.2.2 sid [c, a] hla
  have hgd : (mapGet st.sessions sid).getD [] = [c, a] := by simp [hla]
  have hlt : ¬ ((mapGet st.sessions sid).getD []).length < 2 := by
    rw [hgd]
    simp
  have hfind : ∃ aiP, ([c, a].find? (fun p => jsStartsWith p "ai_")) = some aiP ∧
      jsStartsWith aiP "ai_" = true := by
    cases hc : jsStartsWith c "ai_" with
    | true => exact ⟨c, by simp [List.find?, hc], hc⟩
    | false => exact ⟨a, by simp [List.find?, hc, hpa], hpa⟩
  obtain ⟨aiP, hfa, hfp⟩ := hfind
  have hfind2 : ((mapGet st.sessions sid).getD []).find?
      (fun p => jsStartsWith p "ai_") = some aiP := by
    rw [hgd]
    exact hfa
  refine ⟨aiP, hist, _, hfind2, hfp, hh,
    send_ok_ai u msg ts1 ts2 gen st sid aiP hu hlt hai hfind2, ?_, ?_, rfl, rfl⟩
  · simp [sendState, mapGet_mapSet]
  · simp [sendState, hh, mapGet_mapSet]

theorem send_ai_appends_two_witness :
    ∃ aiP hist st2,
      ((mapGet stAI.sessions "room1").getD []).find? (fun p => jsStartsWith p "ai_") = some aiP ∧
      jsStartsWith aiP "ai_" = true ∧
      mapGet stAI.conversationHistory "room1" = some hist ∧
      send "alice" "hey" "t1" "t2" GenOutcome.err stAI =
        Except.ok (⟨true, "Message sent successfully"⟩, st2) ∧
      mapGet st2.sessionMessages "room1" =
        some (((mapGet stAI.sessionMessages "room1").getD []) ++
          [⟨"alice", "hey", "t1", false⟩,
            ⟨aiP, generateAIResponse GenOutcome.err, "t2", true⟩]) ∧
      mapGet st2.conversationHistory "room1" =
        some (hist ++ [⟨"alice", "hey", "t1", false⟩,
          ⟨aiP, generateAIResponse GenOutcome.err, "t2", true⟩]) ∧
      generateAIResponse GenOutcome.err = "lol same" ∧
      generateAIResponse GenOutcome.badFormat = "yeah thats cool" :=
  send_ai_appends_two stAI "alice" "room1" "hey" "t1" "t2" GenOutcome.err
    (Reachable.step Registry.start _ Reachable.start) (by decide) (by decide)

/-- Claim C10: in a reachable Automated session whose human caller's
own user id starts with "ai_", the generated reply is attributed to
that human (the first "ai_"-prefixed participant in list order), and
the caller's subsequent receive filters the reply out as self-authored,
so the reply is never delivered to them. -/
theorem ai_prefixed_human_never_receives_reply (st : Registry)
    (u sid msg ts1 ts2 : String) (gen : GenOutcome)
    (hr : Reachable st)
    (hu : mapGet st.userToSession u = some sid)
    (hai : sid ∈ st.aiSessions)
    (hpre : jsStartsWith u "ai_" = true) :
    ((mapGet st.sessions sid).getD []).find? (fun p => jsStartsWith p "ai_") = some u ∧
    ∃ st2, send u msg ts1 ts2 gen st =
        Except.ok (⟨true, "Message sent successfully"⟩, st2) ∧
      mapGet st2.sessionMessages sid =
        some (((mapGet st.sessionMessages sid).getD []) ++
          [⟨u, msg, ts1, false⟩, ⟨u, generateAIResponse gen, ts2, true⟩]) ∧
      (receive u st2).1 =
        (((mapGet st.sessionMessages sid).getD []).filter
          (fun m => m.sender_id != u)).map (fun m => m.message) := by
  obtain ⟨c, a, hla, hpa, huniq⟩ := (inv_reachable st hr).2.2.1 sid hai
  have hc2 : c = u := (huniq u hu).symm
  have hgd : (mapGet st.sessions sid).getD [] = [u, a] := by simp [hla, hc2]
  have hfind : ((mapGet st.sessions sid).getD []).find?
      (fun p => jsStartsWith p "ai_") = some u := by
    rw [hgd]
    simp [List.find?, hpre]
  have hlt : ¬ ((mapGet st.sessions sid).getD []).length < 2 := by
    rw [hgd]
    simp
  refine ⟨hfind, sendState sid
    [⟨u, msg, ts1, false⟩, ⟨u, generateAIResponse gen, ts2, true⟩] st,
    send_ok_ai u msg ts1 ts2 gen st sid u hu hlt hai hfind, ?_, ?_⟩
  · simp [sendState, mapGet_mapSet]
  · have hu2 : mapGet (sendState sid
        [⟨u, msg, ts1, false⟩, ⟨u, generateAIResponse gen, ts2, true⟩] st).userToSession u =
        some sid := hu
    rw [receive_some u _ sid hu2]
    have hms : mapGet (sendState sid
        [⟨u, msg, ts1, false⟩, ⟨u, generateAIResponse gen, ts2, true⟩] st).sessionMessages sid =
        some (((mapGet st.sessionMessages sid).getD []) ++
          [⟨u, msg, ts1, false⟩, ⟨u, generateAIResponse gen, ts2, true⟩]) := by
      simp [sendState, mapGet_mapSet]
    rw [show ((mapGet (sendState sid
        [⟨u, msg, ts1, false⟩, ⟨u, generateAIResponse gen, ts2, true⟩] st).sessionMessages sid).getD []) =
        ((mapGet st.sessionMessages sid).getD []) ++
          [⟨u, msg, ts1, false⟩, ⟨u, generateAIResponse gen, ts2, true⟩] from by simp [hms]]
    rw [List.filter_append]
    simp [List.filter]

theorem ai_prefixed_human_never_receives_reply_witness :
    ((mapGet stAiBob.sessions "room1").getD []).find?
      (fun p => jsStartsWith p "ai_") = some "ai_bob" ∧
    ∃ st2, send "ai_bob" "yo" "t1" "t2" GenOutcome.err stAiBob =
        Except.ok (⟨true, "Message sent successfully"⟩, st2) ∧
      mapGet st2.sessionMessages "room1" =
        some (((mapGet stAiBob.sessionMessages "room1").getD []) ++
          [⟨"ai_bob", "yo", "t1", false⟩,
            ⟨"ai_bob", generateAIResponse GenOutcome.err, "t2", true⟩]) ∧
      (receive "ai_bob" st2).1 =
        (((mapGet stAiBob.sessionMessages "room1").getD []).filter
          (fun m => m.sender_id != "ai_bob")).map (fun m => m.message) :=
  ai_prefixed_human_never_receives_reply stAiBob "ai_bob" "room1" "yo" "t1" "t2"
    GenOutcome.err (Reachable.step Registry.start _ Reachable.start)
    (by decide) (by decide) (by decide)

/-- Claim C1, divergence witness: the second variant's answer endpoint
performs none of the specified cleanup — at the failing input the call
returns the correctness verdict but leaves the caller in the
participant list and in the reverse index, and an immediately following
getSessionInfo still succeeds — while the first variant's answer
endpoint removes the caller, destroys the Automated session, and makes
getSessionInfo fail NotFound and getPendingCount return 0, as the claim
states. -/
theorem answerV2_retains_session :
    answerV2 "alice" SType.ai stAI = Except.ok (⟨true⟩, stAI) ∧
    mapGet stAI.sessions "room1" = some ["alice", "ai_5_ab"] ∧
    mapGet stAI.userToSession "alice" = some "room1" ∧
    (∃ r, getSessionInfo "alice" stAI = Except.ok r) ∧
    answer "alice" SType.ai stAI =
      Except.ok (⟨true⟩, removeParticipant "room1" "alice" stAI) ∧
    mapGet (removeParticipant "room1" "alice" stAI).sessions "room1" = none ∧
    mapGet (removeParticipant "room1" "alice" stAI).userToSession "alice" = none ∧
    getSessionInfo "alice" (removeParticipant "room1" "alice" stAI) =
      Except.error ApiErr.notFound ∧
    getPendingCount "alice" (removeParticipant "room1" "alice" stAI) = 0 := by
  refine ⟨rfl, by decide, by decide, ⟨_, rfl⟩, rfl, by decide, by decide, rfl, by decide⟩

end HumanAI
